import Mathlib

/-
Shallow embedding of src/src/imageedit/static/script.js: the five binders
(theme toggle, auto-submit, loading states, confirmations, image upload)
translated into pure Lean functions over explicit state, with JavaScript
nullability modelled by Option and JavaScript exceptions by Except.
-/

namespace ImageEdit

/-- JavaScript falsiness of a nullable string: `!x` is true when `x` is
`null` (here `none`) or the empty string. -/
def jsFalsyOpt : Option String → Bool
  | none => true
  | some s => if s = "" then true else false

/-- JavaScript `x || dflt` on a nullable string: yields `dflt` exactly when
`x` is falsy (null or empty). -/
def jsOr (x : Option String) (dflt : String) : String :=
  match x with
  | none => dflt
  | some s => if s = "" then dflt else s

/-- Coercion of a possibly-undefined JavaScript value to a string, as the
DOM performs when assigning to `textarea.value`: `undefined` becomes the
string "undefined". -/
def jsStringOfValue : Option String → String
  | some s => s
  | none => "undefined"

/-- JavaScript `String.prototype.trim`: remove leading and trailing
whitespace (modelled over the common whitespace characters). -/
def jsTrim (s : String) : String :=
  String.mk (((s.toList.dropWhile Char.isWhitespace).reverse.dropWhile Char.isWhitespace).reverse)

/-- Removal of trailing whitespace only (JavaScript `trimEnd`), used to state
the spec's "trim trailing whitespace" wording. -/
def jsTrimRight (s : String) : String :=
  String.mk ((s.toList.reverse.dropWhile Char.isWhitespace).reverse)

/-- Substring test: `strContains s pat` is true when `pat` occurs as a
contiguous substring of `s`. -/
def strContains (s pat : String) : Bool :=
  (List.range (s.length + 1)).any (fun i => (s.toList.drop i).take pat.length == pat.toList)

/-- Whether an `Except` computation finished without raising. -/
def isOkE {α : Type} : Except String α → Bool
  | Except.ok _ => true
  | Except.error _ => false

/-- `classList.add`: a DOMTokenList is an ordered set, so adding appends the
token only when it is not already present. -/
def classListAdd (cs : List String) (c : String) : List String :=
  if cs.contains c then cs else cs ++ [c]

/-! ## Theme toggle (initThemeToggle, script.js lines 9-25) -/

/-- The startup condition of `initThemeToggle`
(`savedTheme === 'light' || (!savedTheme && prefersLight)`). -/
def themeStartupCond (savedTheme : Option String) (prefersLight : Bool) : Bool :=
  (if savedTheme = some ("light") then true else false) || (jsFalsyOpt savedTheme && prefersLight)

/-- Body class after the startup block of `initThemeToggle`: the class is
added (never removed) when the startup condition holds; `light0` is the class
state the document loaded with. -/
def initThemeClass (savedTheme : Option String) (prefersLight : Bool) (light0 : Bool) : Bool :=
  if themeStartupCond savedTheme prefersLight then true else light0

/-- The state the theme-toggle click listener manipulates: whether the body
carries the `light-theme` class, and the persisted `theme` entry of
localStorage (`none` when the entry is absent). -/
structure ThemeState where
  lightTheme : Bool
  storedTheme : Option String
deriving DecidableEq, Repr

/-- The click listener of `initThemeToggle`: toggle the class, then persist
"light" or "dark" according to the class state after the toggle. -/
def themeToggleClick (s : ThemeState) : ThemeState :=
  let isLight := !s.lightTheme
  { lightTheme := isLight
    storedTheme := some (if isLight then ("light") else ("dark")) }

/-! ## Document presence and binder initialization -/

/-- Which of the optional DOM elements the script looks up are present in
the document. -/
structure DocPresence where
  themeToggle : Bool
  galleryWidth : Bool
  galleryHeight : Bool
  modelName : Bool
  styleName : Bool
  mainForm : Bool
  uploadBtn : Bool
  fileInput : Bool
  urlsTextarea : Bool
deriving DecidableEq, Repr

/-- `document.getElementById(id)` succeeded (the element exists). -/
def DocPresence.has (d : DocPresence) : String → Bool
  | "theme-toggle" => d.themeToggle
  | "gallery-width" => d.galleryWidth
  | "gallery-height" => d.galleryHeight
  | "model-name" => d.modelName
  | "style-name" => d.styleName
  | "main-form" => d.mainForm
  | "upload-image-btn" => d.uploadBtn
  | "local-image-upload" => d.fileInput
  | "image-urls" => d.urlsTextarea
  | _ => false

/-- The fixed list of auto-submit field ids in `initAutoSubmit`. -/
def autoSubmitIds : List String :=
  ["gallery-width", "gallery-height", "model-name"]

/-- The ids `initAutoSubmit` attaches a change listener to: each auto-submit
id that exists (guarded by `if (element)`), plus `style-name` when it exists
(guarded by `if (styleInput)`). -/
def autoAttached (d : DocPresence) : List String :=
  (autoSubmitIds.filter d.has) ++ (if d.has ("style-name") then [("style-name")] else [])

/-- `initThemeToggle` as run at startup: the class is applied first; then
`toggleBtn.addEventListener` is reached with no null guard, so a missing
`theme-toggle` element raises a TypeError after the class was applied. -/
def initThemeToggleE (d : DocPresence) (savedTheme : Option String)
    (prefersLight : Bool) (light0 : Bool) : Bool × Except String Unit :=
  (initThemeClass savedTheme prefersLight light0,
   if d.themeToggle then Except.ok () else Except.error ("TypeError: toggleBtn is null"))

/-- `initAutoSubmit`: every element lookup is guarded, so it never raises and
returns the set of attached listeners. -/
def initAutoSubmitE (d : DocPresence) : Except String (List String) :=
  Except.ok (autoAttached d)

/-- `initLoadingStates`: returns early when `main-form` is absent
(`if (!mainForm) return`), otherwise attaches one submit listener. -/
def initLoadingStatesE (d : DocPresence) : Except String Bool :=
  if d.has ("main-form") then Except.ok true else Except.ok false

/-- `initConfirmations`: `querySelectorAll` yields a (possibly empty) list
and `forEach` attaches one listener per element; never raises. -/
def initConfirmationsE (dangerButtons : List (Option String)) : Except String Nat :=
  Except.ok dangerButtons.length

/-- `initImageUpload`: returns early when any of the three upload elements is
absent (`if (!uploadBtn || !fileInput || !urlsTextarea) return`). -/
def initImageUploadE (d : DocPresence) : Except String Bool :=
  if d.has ("upload-image-btn") && d.has ("local-image-upload") && d.has ("image-urls")
  then Except.ok true else Except.ok false

/-! ## Auto-submit change dispatch (initAutoSubmit, lines 31-56) -/

/-- Actions an auto-submit change handler can perform. -/
inductive AutoAction where
  | submitForm
  | clickAppend
deriving DecidableEq, Repr

/-- The change handler attached to a given id: the three auto-submit fields
call `e.target.form.submit()`; the `style-name` field instead clicks
`append-style-button` when that button exists at event time. -/
def changeHandlerFor (id : String) (appendBtnExists : Bool) : List AutoAction :=
  if id = "style-name" then
    (if appendBtnExists then [AutoAction.clickAppend] else [])
  else [AutoAction.submitForm]

/-- Dispatch of a change event on element `target`: every listener attached
to `target` runs once, in attachment order. -/
def changeDispatch (attached : List String) (target : String) (appendBtnExists : Bool) :
    List AutoAction :=
  (attached.filter (fun a => a = target)).foldr
    (fun a acc => changeHandlerFor a appendBtnExists ++ acc) []

/-! ## Loading states (initLoadingStates, lines 61-84) -/

/-- The submit-capable control that triggered a form submission
(`e.submitter`), with the fields the handler reads and writes. -/
structure Submitter where
  value : String
  innerHTML : String
  styleWidth : Option String
  classes : List String
  offsetWidth : Nat
deriving DecidableEq, Repr

/-- The literal markup the handler writes into the submitter. -/
def spinnerHTML : String := "<span>Generating...</span> <span class=\"spinner\"></span>"

/-- The submit listener of `initLoadingStates`: when the submitter exists and
its value is "run", freeze its pixel width, replace its markup with the
spinner, and add the `loading` class; the second component is whether the
handler prevented the native submission (it never calls preventDefault). -/
def loadingSubmitHandler (submitter : Option Submitter) : Option Submitter × Bool :=
  match submitter with
  | none => (none, false)
  | some sub =>
    if sub.value = "run" then
      (some { sub with
          styleWidth := some (toString sub.offsetWidth ++ ("px"))
          innerHTML := spinnerHTML
          classes := classListAdd sub.classes ("loading") }, false)
    else (some sub, false)

/-! ## Confirmations (initConfirmations, lines 90-101) -/

/-- The fallback confirmation message. -/
def genericConfirmMsg : String := "Are you sure you want to proceed?"

/-- `btn.getAttribute('data-confirm') || 'Are you sure you want to proceed?'`:
`getAttribute` yields null (`none`) when the attribute is absent, and `||`
also discards a present-but-empty value. -/
def confirmMessage (dataConfirm : Option String) : String :=
  jsOr dataConfirm genericConfirmMsg

/-- The click listener of `initConfirmations`: show the message via
`confirm`, and call `preventDefault` exactly when the user declines. Returns
the prompted message and whether the default action was prevented. -/
def confirmClickHandler (dataConfirm : Option String) (userConfirms : Bool) : String × Bool :=
  (confirmMessage dataConfirm, !userConfirms)

/-! ## Image upload (initImageUpload, lines 106-161) -/

/-- A JSON response body, restricted to the two fields the script reads:
`url` and `error` (each possibly absent). -/
structure JsonBody where
  url : Option String
  error : Option String
deriving DecidableEq, Repr

/-- Outcome of `fetch('/api/upload', ...)`: the transport may reject
(network error), or deliver a response with an `ok` flag and a body that
either parses as JSON or does not (`none`). -/
inductive FetchOutcome where
  | networkError (msg : String)
  | response (ok : Bool) (body : Option JsonBody)
deriving DecidableEq, Repr

/-- The pieces of DOM state the upload change handler reads and writes. -/
structure UploadState where
  uploadBtnText : String
  uploadBtnDisabled : Bool
  fileInputFiles : List String
  fileInputValue : String
  textareaValue : String
deriving DecidableEq, Repr

/-- Externally observable events of one run of the upload change handler. -/
inductive UploadEvent where
  | fetchRequest (fileName : String)
  | alertShown (message : String)
deriving DecidableEq, Repr

/-- The `try` block of the change handler, given the fetch outcome: either
the new textarea value (success path, lines 140-149) or the message of the
raised error. A body that fails to parse makes `response.json()` reject with
the JSON parser's own message `parseErrMsg`; a failing status with a parsed
body raises `errorData.error || 'Upload failed'` (line 137). -/
def uploadTryBody (parseErrMsg : String) (outcome : FetchOutcome) (textareaVal : String) :
    Except String String :=
  match outcome with
  | FetchOutcome.networkError msg => Except.error msg
  | FetchOutcome.response ok body =>
    if ok = false then
      match body with
      | none => Except.error parseErrMsg
      | some errorData => Except.error (jsOr errorData.error ("Upload failed"))
    else
      match body with
      | none => Except.error parseErrMsg
      | some data =>
        let url := jsStringOfValue data.url
        let currentVal := jsTrim textareaVal
        if currentVal ≠ "" then Except.ok (currentVal ++ "\n" ++ url)
        else Except.ok url

/-- The change listener of `initImageUpload` (lines 117-160): return
immediately on an empty selection; otherwise stash the button label, show the
uploading state, run the try block (catch alerts
`'Failed to upload image: ' + err.message`), and in `finally` restore the
label, re-enable the button and clear the file input. -/
def fileChangeHandler (parseErrMsg : String) (outcome : FetchOutcome) (s : UploadState) :
    UploadState × List UploadEvent :=
  if s.fileInputFiles.isEmpty then (s, [])
  else
    let file := s.fileInputFiles.headD ("")
    let originalText := s.uploadBtnText
    let s1 : UploadState := { s with uploadBtnText := ("Uploading...") , uploadBtnDisabled := true }
    let step : UploadState × List UploadEvent :=
      match uploadTryBody parseErrMsg outcome s1.textareaValue with
      | Except.ok newVal => ({ s1 with textareaValue := newVal }, [UploadEvent.fetchRequest file])
      | Except.error msg =>
          (s1, [UploadEvent.fetchRequest file,
                UploadEvent.alertShown (("Failed to upload image: ") ++ msg)])
    ({ step.1 with uploadBtnText := originalText
                   uploadBtnDisabled := false
                   fileInputValue := "" }, step.2)

/-- Modelled from the spec (claim C1's wording, not from the source): the
textarea-update rule with only trailing whitespace of the prior content
trimmed and leading whitespace preserved; to be compared with the rule the
source implements in `uploadTryBody`. -/
def claimC1Result (prior url : String) : String :=
  if prior = "" then url else jsTrimRight prior ++ "\n" ++ url

/-! ## Helper lemmas -/

theorem string_toList_eq_data (s : String) : s.toList = s.data := rfl

theorem string_length_eq_data (s : String) : s.length = s.data.length := by
  cases s
  rfl

theorem strContains_append_right (p e : String) : strContains (p ++ e) e = true := by
  unfold strContains
  rw [List.any_eq_true]
  refine ⟨p.length, List.mem_range.mpr ?_, ?_⟩
  · rw [String.length_append]
    omega
  · have h1 : (p ++ e).toList = p.toList ++ e.toList := by
      simp [string_toList_eq_data]
    rw [h1, List.drop_left' (by rw [string_toList_eq_data, ← string_length_eq_data])]
    rw [show e.length = e.toList.length from by rw [string_toList_eq_data, string_length_eq_data]]
    rw [List.take_length]
    simp

theorem fileInputFiles_isEmpty_false {s : UploadState} (hf : s.fileInputFiles ≠ []) :
    s.fileInputFiles.isEmpty = false := by
  cases h : s.fileInputFiles with
  | nil => exact absurd h hf
  | cons a l => rfl

/-! ## C1 -/

/-- C1 (counterexample): with prior textarea content " a" (leading space) and
a successful upload of url "https://x/y.png", the handler produces
"a\nhttps://x/y.png" — the leading space is NOT preserved — while the claim's
trailing-only-trim rule (`claimC1Result`) demands " a\nhttps://x/y.png". -/
theorem c1_counterexample :
    (fileChangeHandler ("perr")
        (FetchOutcome.response true (some ⟨some ("https://x/y.png"), none⟩))
        { uploadBtnText := "Upload", uploadBtnDisabled := false, fileInputFiles := ["f.png"],
          fileInputValue := "f.png", textareaValue := " a" }).1.textareaValue
      = "a\nhttps://x/y.png" ∧
    claimC1Result (" a") ("https://x/y.png") = " a\nhttps://x/y.png" ∧
    ("a\nhttps://x/y.png" : String) ≠ " a\nhttps://x/y.png" := by
  decide

/-- C1 (amended): on a successful upload response whose body parses as JSON
with a string field "url", the handler sets the textarea to exactly the url
when the prior content trims to empty, and otherwise to the prior content
with BOTH leading and trailing whitespace trimmed, followed by a newline,
followed by the url (leading whitespace of the prior content is removed). -/
theorem c1_success_append (s : UploadState) (parseErrMsg url : String) (body : JsonBody)
    (hf : s.fileInputFiles ≠ []) (hu : body.url = some url) :
    (fileChangeHandler parseErrMsg (FetchOutcome.response true (some body)) s).1.textareaValue
      = (if jsTrim s.textareaValue = "" then url
         else jsTrim s.textareaValue ++ "\n" ++ url) := by
  have hne := fileInputFiles_isEmpty_false hf
  by_cases hc : jsTrim s.textareaValue = "" <;>
    simp [fileChangeHandler, hne, uploadTryBody, hu, jsStringOfValue, hc]

/-- C1 (witness): the amended theorem evaluated at a concrete non-empty prior
content "a" yields "a\nhttps://x/y.png". -/
theorem c1_success_append_witness :
    (fileChangeHandler ("perr")
        (FetchOutcome.response true (some ⟨some ("https://x/y.png"), none⟩))
        { uploadBtnText := "Upload", uploadBtnDisabled := false, fileInputFiles := ["f.png"],
          fileInputValue := "f.png", textareaValue := "a" }).1.textareaValue
      = "a\nhttps://x/y.png" := by
  have h := c1_success_append
    { uploadBtnText := "Upload", uploadBtnDisabled := false, fileInputFiles := ["f.png"],
      fileInputValue := "f.png", textareaValue := "a" }
    ("perr") ("https://x/y.png") ⟨some ("https://x/y.png"), none⟩ (by decide) rfl
  rw [h]
  decide

/-! ## C2 -/

/-- C2 (counterexample): on a failing response whose body does not parse as
JSON, `response.json()` rejects and its parse-error message — not the code's
generic fallback "Upload failed" — reaches the alert: the alert for parse
error "Unexpected end of JSON input" does not contain "Upload failed". -/
theorem c2_counterexample :
    (fileChangeHandler ("Unexpected end of JSON input") (FetchOutcome.response false none)
        { uploadBtnText := "Upload", uploadBtnDisabled := false, fileInputFiles := ["f.png"],
          fileInputValue := "f.png", textareaValue := "" }).2
      = [UploadEvent.fetchRequest ("f.png"),
         UploadEvent.alertShown ("Failed to upload image: Unexpected end of JSON input")] ∧
    strContains ("Failed to upload image: Unexpected end of JSON input") ("Upload failed")
      = false := by
  decide

/-- C2 (amended): on a failing response the textarea is unchanged and exactly
one alert is shown; the alert contains the body's "error" field when that
field is present and non-empty; it contains the generic message
"Upload failed" when the body parses but the "error" field is absent or
empty; and when the body cannot be parsed as JSON the alert carries the JSON
parse error's own message (not the generic message). -/
theorem c2_failure_alert (s : UploadState) (parseErrMsg : String) (body : Option JsonBody)
    (hf : s.fileInputFiles ≠ []) :
    (fileChangeHandler parseErrMsg (FetchOutcome.response false body) s).1.textareaValue
      = s.textareaValue ∧
    (∀ b e, body = some b → b.error = some e → e ≠ "" →
      (fileChangeHandler parseErrMsg (FetchOutcome.response false body) s).2
        = [UploadEvent.fetchRequest (s.fileInputFiles.headD ("")),
           UploadEvent.alertShown (("Failed to upload image: ") ++ e)] ∧
      strContains (("Failed to upload image: ") ++ e) e = true) ∧
    (∀ b, body = some b → (b.error = none ∨ b.error = some ("")) →
      (fileChangeHandler parseErrMsg (FetchOutcome.response false body) s).2
        = [UploadEvent.fetchRequest (s.fileInputFiles.headD ("")),
           UploadEvent.alertShown (("Failed to upload image: ") ++ ("Upload failed"))]) ∧
    (body = none →
      (fileChangeHandler parseErrMsg (FetchOutcome.response false body) s).2
        = [UploadEvent.fetchRequest (s.fileInputFiles.headD ("")),
           UploadEvent.alertShown (("Failed to upload image: ") ++ parseErrMsg)]) := by
  have hne := fileInputFiles_isEmpty_false hf
  refine ⟨?_, ?_, ?_, ?_⟩
  · cases body <;> simp [fileChangeHandler, hne, uploadTryBody]
  · intro b e hb he hee
    subst hb
    constructor
    · simp [fileChangeHandler, hne, uploadTryBody, jsOr, he, hee]
    · exact strContains_append_right ("Failed to upload image: ") e
  · intro b hb herr
    subst hb
    rcases herr with h | h <;> simp [fileChangeHandler, hne, uploadTryBody, jsOr, h]
  · intro hb
    subst hb
    simp [fileChangeHandler, hne, uploadTryBody]

/-- C2 (witness): concrete failing response with error field "too large":
alert is "Failed to upload image: too large" and the textarea keeps "x". -/
theorem c2_failure_alert_witness :
    (fileChangeHandler ("perr")
        (FetchOutcome.response false (some ⟨none, some ("too large")⟩))
        { uploadBtnText := "Upload", uploadBtnDisabled := false, fileInputFiles := ["f.png"],
          fileInputValue := "f.png", textareaValue := "x" }).1.textareaValue = "x" ∧
    (fileChangeHandler ("perr")
        (FetchOutcome.response false (some ⟨none, some ("too large")⟩))
        { uploadBtnText := "Upload", uploadBtnDisabled := false, fileInputFiles := ["f.png"],
          fileInputValue := "f.png", textareaValue := "x" }).2
      = [UploadEvent.fetchRequest ("f.png"),
         UploadEvent.alertShown ("Failed to upload image: too large")] := by
  have h := c2_failure_alert
    { uploadBtnText := "Upload", uploadBtnDisabled := false, fileInputFiles := ["f.png"],
      fileInputValue := "f.png", textareaValue := "x" }
    ("perr") (some ⟨none, some ("too large")⟩) (by decide)
  refine ⟨h.1, ?_⟩
  have h2 := (h.2.1 ⟨none, some ("too large")⟩ ("too large") rfl rfl (by decide)).1
  rw [h2]
  decide

/-! ## C3 -/

/-- C3: for every upload attempt started with a non-empty file selection,
whatever the fetch outcome (network error, failing response with parsed or
unparseable body, successful response), the `finally` block leaves the
button's text at its pre-upload value, the button enabled, and the file
input's selection cleared. -/
theorem c3_cleanup (s : UploadState) (parseErrMsg : String) (outcome : FetchOutcome)
    (hf : s.fileInputFiles ≠ []) :
    (fileChangeHandler parseErrMsg outcome s).1.uploadBtnText = s.uploadBtnText ∧
    (fileChangeHandler parseErrMsg outcome s).1.uploadBtnDisabled = false ∧
    (fileChangeHandler parseErrMsg outcome s).1.fileInputValue = "" := by
  have hne := fileInputFiles_isEmpty_false hf
  refine ⟨?_, ?_, ?_⟩ <;> simp [fileChangeHandler, hne]

/-- C3 (witness): a concrete network-error run restores label "Upload",
re-enables the button and clears the file input. -/
theorem c3_cleanup_witness :
    (fileChangeHandler ("perr") (FetchOutcome.networkError ("net down"))
        { uploadBtnText := "Upload", uploadBtnDisabled := false, fileInputFiles := ["f.png"],
          fileInputValue := "f.png", textareaValue := "x" }).1.uploadBtnText = "Upload" ∧
    (fileChangeHandler ("perr") (FetchOutcome.networkError ("net down"))
        { uploadBtnText := "Upload", uploadBtnDisabled := false, fileInputFiles := ["f.png"],
          fileInputValue := "f.png", textareaValue := "x" }).1.uploadBtnDisabled = false ∧
    (fileChangeHandler ("perr") (FetchOutcome.networkError ("net down"))
        { uploadBtnText := "Upload", uploadBtnDisabled := false, fileInputFiles := ["f.png"],
          fileInputValue := "f.png", textareaValue := "x" }).1.fileInputValue = "" :=
  c3_cleanup
    { uploadBtnText := "Upload", uploadBtnDisabled := false, fileInputFiles := ["f.png"],
      fileInputValue := "f.png", textareaValue := "x" }
    ("perr") (FetchOutcome.networkError ("net down")) (by decide)

/-! ## C4 -/

/-- C4: the main form's submit listener never prevents the native submission;
a submission with no submitter or whose submitter's value differs from "run"
leaves the submitter unchanged; and exactly when the value is "run" the
handler freezes the pixel width, replaces the markup with the spinner and
adds the `loading` class. -/
theorem c4_loading_submitter (submitter : Option Submitter) :
    (loadingSubmitHandler submitter).2 = false ∧
    (submitter = none → (loadingSubmitHandler submitter).1 = none) ∧
    (∀ sub, submitter = some sub → sub.value ≠ "run" →
      (loadingSubmitHandler submitter).1 = some sub) ∧
    (∀ sub, submitter = some sub → sub.value = "run" →
      (loadingSubmitHandler submitter).1 = some { sub with
          styleWidth := some (toString sub.offsetWidth ++ ("px"))
          innerHTML := spinnerHTML
          classes := classListAdd sub.classes ("loading") }) := by
  refine ⟨?_, ?_, ?_, ?_⟩
  · cases submitter with
    | none => rfl
    | some sub => by_cases h : sub.value = "run" <;> simp [loadingSubmitHandler, h]
  · intro h
    subst h
    rfl
  · intro sub h hv
    subst h
    simp [loadingSubmitHandler, hv]
  · intro sub h hv
    subst h
    simp [loadingSubmitHandler, hv]

/-- C4 (witness): a "run" submitter of width 80 gets width "80px", the
spinner markup and the loading class; the submission is not prevented. -/
theorem c4_loading_submitter_witness :
    (loadingSubmitHandler (some ⟨"run", "Run", none, [], 80⟩)).1
      = some ⟨"run", spinnerHTML, some ("80px"), ["loading"], 80⟩ ∧
    (loadingSubmitHandler (some ⟨"run", "Run", none, [], 80⟩)).2 = false := by
  constructor
  · have h := (c4_loading_submitter (some ⟨"run", "Run", none, [], 80⟩)).2.2.2
      ⟨"run", "Run", none, [], 80⟩ rfl rfl
    rw [h]
    decide
  · exact (c4_loading_submitter (some ⟨"run", "Run", none, [], 80⟩)).1

/-! ## C5 -/

/-- C5 (counterexample): an element whose `data-confirm` attribute is present
but empty is prompted with the generic message, not with its (empty)
attribute value, because `||` discards the empty string. -/
theorem c5_counterexample :
    (confirmClickHandler (some ("")) true).1 = genericConfirmMsg ∧
    genericConfirmMsg ≠ "" := by
  decide

/-- C5 (amended): a click on a danger-marked element prompts with the
element's `data-confirm` value when that attribute is present AND non-empty,
and with the generic message when it is absent or empty; the default action
is prevented exactly when the user declines. -/
theorem c5_confirm (dataConfirm : Option String) (userConfirms : Bool) :
    (∀ m, dataConfirm = some m → m ≠ "" →
      (confirmClickHandler dataConfirm userConfirms).1 = m) ∧
    ((dataConfirm = none ∨ dataConfirm = some ("")) →
      (confirmClickHandler dataConfirm userConfirms).1 = genericConfirmMsg) ∧
    ((confirmClickHandler dataConfirm userConfirms).2 = true ↔ userConfirms = false) := by
  refine ⟨?_, ?_, ?_⟩
  · intro m h hm
    subst h
    simp [confirmClickHandler, confirmMessage, jsOr, hm]
  · intro h
    rcases h with h | h <;> subst h <;> rfl
  · cases userConfirms <;> simp [confirmClickHandler]

/-- C5 (witness): accepted prompt with message "Really delete?" shows that
message and leaves the default action unprevented; the declined case at the
same input is prevented. -/
theorem c5_confirm_witness :
    (confirmClickHandler (some ("Really delete?")) true).1 = "Really delete?" ∧
    (confirmClickHandler (some ("Really delete?")) true).2 = false ∧
    (confirmClickHandler (some ("Really delete?")) false).2 = true := by
  refine ⟨?_, ?_, ?_⟩
  · exact (c5_confirm (some ("Really delete?")) true).1 ("Really delete?") rfl (by decide)
  · have h := (c5_confirm (some ("Really delete?")) true).2.2
    cases hb : (confirmClickHandler (some ("Really delete?")) true).2 with
    | false => rfl
    | true => exact absurd (h.mp hb) (by decide)
  · exact ((c5_confirm (some ("Really delete?")) false).2.2).mpr rfl

/-! ## C6 -/

/-- C6: a change on any present auto-submit field (gallery-width,
gallery-height, model-name) dispatches exactly one form submission and no
button click; a change on a present style-name field dispatches exactly one
click of the append-style-button when that button exists — and no form
submission in either case. -/
theorem c6_autosubmit (d : DocPresence) (appendBtnExists : Bool) :
    (∀ id, id ∈ autoSubmitIds → d.has id = true →
      changeDispatch (autoAttached d) id appendBtnExists = [AutoAction.submitForm]) ∧
    (d.has ("style-name") = true →
      changeDispatch (autoAttached d) ("style-name") appendBtnExists
        = (if appendBtnExists then [AutoAction.clickAppend] else [])) := by
  obtain ⟨t, gw, gh, mn, sn, mf, ub, fi, ta⟩ := d
  constructor
  · intro id hid
    fin_cases hid <;>
      · intro hhas
        cases gw <;> cases gh <;> cases mn <;> cases sn <;>
          simp_all [changeDispatch, autoAttached, autoSubmitIds, DocPresence.has,
            changeHandlerFor]
  · intro hhas
    cases gw <;> cases gh <;> cases mn <;> cases sn <;>
      simp_all [changeDispatch, autoAttached, autoSubmitIds, DocPresence.has,
        changeHandlerFor]

/-- C6 (witness): with every element present, changing gallery-width submits
exactly once, and changing style-name clicks the append button exactly once
and submits nothing. -/
theorem c6_autosubmit_witness :
    changeDispatch (autoAttached ⟨true, true, true, true, true, true, true, true, true⟩)
        ("gallery-width") true = [AutoAction.submitForm] ∧
    changeDispatch (autoAttached ⟨true, true, true, true, true, true, true, true, true⟩)
        ("style-name") true = [AutoAction.clickAppend] := by
  constructor
  · exact (c6_autosubmit ⟨true, true, true, true, true, true, true, true, true⟩ true).1
      ("gallery-width") (by decide) (by decide)
  · have h := (c6_autosubmit ⟨true, true, true, true, true, true, true, true, true⟩ true).2
      (by decide)
    rw [h]
    rfl

/-! ## C7 -/

/-- C7 (counterexample): with a stored theme value that is the empty string
and an OS light preference, the startup code applies the light class, even
though the stored value is neither "light" nor absent — `!savedTheme` treats
a stored empty string like a missing entry. -/
theorem c7_counterexample :
    initThemeClass (some ("")) true false = true ∧
    (some ("") : Option String) ≠ some ("light") ∧
    (some ("") : Option String) ≠ none := by
  decide

/-- C7 (amended): at startup (document root initially without the class) the
light-theme class is applied exactly when the stored preference equals
"light", or the stored entry is absent OR the empty string and the OS reports
a light-mode preference; for every other combination the class is absent. -/
theorem c7_theme_startup (savedTheme : Option String) (prefersLight : Bool) :
    initThemeClass savedTheme prefersLight false = true ↔
      (savedTheme = some ("light") ∨
        ((savedTheme = none ∨ savedTheme = some ("")) ∧ prefersLight = true)) := by
  cases savedTheme with
  | none => cases prefersLight <;> simp [initThemeClass, themeStartupCond, jsFalsyOpt]
  | some s =>
    by_cases hs : s = "light"
    · subst hs
      cases prefersLight <;> simp [initThemeClass, themeStartupCond, jsFalsyOpt]
    · by_cases he : s = ""
      · subst he
        cases prefersLight <;> simp [initThemeClass, themeStartupCond, jsFalsyOpt]
      · cases prefersLight <;>
          simp [initThemeClass, themeStartupCond, jsFalsyOpt, hs, he]

/-! ## C8 -/

/-- C8 (counterexample): starting with the class absent and no persisted
entry, two toggle clicks leave the persisted entry holding "dark" — not the
originally-stored value (which was absent). -/
theorem c8_counterexample :
    (themeToggleClick (themeToggleClick ⟨false, none⟩)).storedTheme = some ("dark") ∧
    (themeToggleClick (themeToggleClick ⟨false, none⟩)).storedTheme
      ≠ (⟨false, none⟩ : ThemeState).storedTheme := by
  decide

/-- C8 (amended): for every initial state, clicking the theme toggle twice
restores the presentation class to its initial state, and leaves the
persisted entry holding "light" if the class was initially present and
"dark" otherwise — which equals the originally-stored value only when that
value already matched the class state. -/
theorem c8_toggle_twice (s : ThemeState) :
    (themeToggleClick (themeToggleClick s)).lightTheme = s.lightTheme ∧
    (themeToggleClick (themeToggleClick s)).storedTheme
      = some (if s.lightTheme then ("light") else ("dark")) := by
  obtain ⟨light, stored⟩ := s
  cases light <;> simp [themeToggleClick]

/-! ## C9 -/

/-- C9 (counterexample): initializing with every optional element absent does
NOT complete without error: `initThemeToggle` reaches
`toggleBtn.addEventListener` with no null guard and raises. -/
theorem c9_counterexample :
    isOkE (initThemeToggleE ⟨false, false, false, false, false, false, false, false, false⟩
        none false false).2 = false := by
  decide

/-- C9 (amended): the auto-submit binder, loading-state binder, confirmation
binder and upload binder each tolerate any subset of their elements being
absent and complete without error; the theme-toggle binder completes without
error exactly when the theme-toggle element is present (its startup class
application still happens first). -/
theorem c9_init_skips (d : DocPresence) (savedTheme : Option String)
    (prefersLight light0 : Bool) (dangerButtons : List (Option String)) :
    isOkE (initAutoSubmitE d) = true ∧
    isOkE (initLoadingStatesE d) = true ∧
    isOkE (initConfirmationsE dangerButtons) = true ∧
    isOkE (initImageUploadE d) = true ∧
    (isOkE (initThemeToggleE d savedTheme prefersLight light0).2 = true ↔
      d.themeToggle = true) := by
  refine ⟨rfl, ?_, rfl, ?_, ?_⟩
  · unfold initLoadingStatesE
    split <;> rfl
  · unfold initImageUploadE
    split <;> rfl
  · cases h : d.themeToggle <;> simp [initThemeToggleE, isOkE, h]

/-! ## C10 -/

/-- C10: a change event with an empty file selection returns immediately:
the state (button label, disabled flag, file input, textarea) is unchanged
and no fetch request or alert is issued. -/
theorem c10_empty_noop (s : UploadState) (parseErrMsg : String) (outcome : FetchOutcome)
    (hf : s.fileInputFiles = []) :
    fileChangeHandler parseErrMsg outcome s = (s, []) := by
  simp [fileChangeHandler, hf]

/-- C10 (witness): the no-op at a concrete empty-selection state. -/
theorem c10_empty_noop_witness :
    fileChangeHandler ("perr") (FetchOutcome.networkError ("net down"))
        { uploadBtnText := "Upload", uploadBtnDisabled := false, fileInputFiles := [],
          fileInputValue := "", textareaValue := "x" }
      = ({ uploadBtnText := "Upload", uploadBtnDisabled := false, fileInputFiles := [],
           fileInputValue := "", textareaValue := "x" }, []) :=
  c10_empty_noop
    { uploadBtnText := "Upload", uploadBtnDisabled := false, fileInputFiles := [],
      fileInputValue := "", textareaValue := "x" }
    ("perr") (FetchOutcome.networkError ("net down")) rfl

end ImageEdit
